import Mathlib

/-!
Shallow embedding of the core logic of `src/app.py` from the
gemini-file-search-start repository: the pagination state tracker, the
document listing with its continuation-token guard, the upload orchestrator
with its temporary file handling, the chat history bookkeeping, the upload
dedup record, the batch delete loop, and the response cache layer.

External effects (the vendor SDK, the UI toolkit, the filesystem) are
modelled as explicit oracle inputs describing the observable outcome of each
external call; exceptions are modelled with `Except`.
-/

namespace GeminiFileSearch

/-! ### Pagination state tracker (src/app.py lines 154-158, 134-137, 186-198, 217-219) -/

/-- Per-store pagination state held in `st.session_state` under the key
`docs_page_<store>`: `page_tokens` is the ordered list of continuation tokens
(`page_tokens[0]` is Python `None`, the first page) and `current_index` is the
current page index (a Python int, hence `Int`). -/
structure PageState where
  page_tokens : List (Option String)
  current_index : Int
  deriving DecidableEq, Repr

/-- Initial pagination state installed by `get_docs_page_state`
(src/app.py line 157). -/
def initPageState : PageState := ⟨[none], 0⟩

/-- Session mapping from store name to its pagination state; `none` models a
missing `docs_page_<store>` key. -/
def PaginationSession : Type := String → Option PageState

/-- `get_docs_page_state` (src/app.py lines 154-158): returns the stored state
for the store, installing the initial state first when the key is absent.
Returns the state that the caller sees and the updated session. -/
def get_docs_page_state (session : PaginationSession) (store_name : String) :
    PageState × PaginationSession :=
  match session store_name with
  | some ps => (ps, session)
  | none =>
    (initPageState,
      fun s => if s = store_name then some initPageState else session s)

/-- `reset_docs_pagination` (src/app.py lines 134-137): deletes every
`docs_page_*` key from the session, so every store reverts to the initial
state on its next `get_docs_page_state`. -/
def reset_docs_pagination (_session : PaginationSession) : PaginationSession :=
  fun _ => none

/-- In-place reset done by the batch delete handler (src/app.py lines
218-219): `page_state["page_tokens"] = [None]; page_state["current_index"] = 0`
for the selected store only. -/
def delete_path_reset (session : PaginationSession) (store_name : String) :
    PaginationSession :=
  fun s => if s = store_name then some initPageState else session s

/-- Token requested for the current page: `page_tokens[current_index]`
(src/app.py line 167). Meaningful when the invariant gives
`0 ≤ current_index < page_tokens.length`. -/
def current_page_token (ps : PageState) : Option (Option String) :=
  ps.page_tokens.get? ps.current_index.toNat

/-- Next-page button handler (src/app.py lines 194-197): with
`next_page_token` not `None` (the button is disabled otherwise), append the
token when `len(page_tokens) <= current_index + 1`, then increment
`current_index`. -/
def advance (ps : PageState) (next_page_token : Option String) : PageState :=
  let toks :=
    if (ps.page_tokens.length : Int) ≤ ps.current_index + 1 then
      ps.page_tokens ++ [next_page_token]
    else ps.page_tokens
  ⟨toks, ps.current_index + 1⟩

/-- Previous-page button handler (src/app.py lines 188-189): decrement
`current_index`; the button is disabled when `current_index == 0`. -/
def retreat (ps : PageState) : PageState :=
  ⟨ps.page_tokens, ps.current_index - 1⟩

/-- Invariant of the pagination state: the current index is in bounds and the
first stored token is `None` (the first page). -/
def PageInv (ps : PageState) : Prop :=
  0 ≤ ps.current_index ∧ ps.current_index < (ps.page_tokens.length : Int) ∧
    ps.page_tokens.head? = some none

instance (ps : PageState) : Decidable (PageInv ps) :=
  inferInstanceAs (Decidable (_ ∧ _ ∧ _))

/-! ### Document listing (src/app.py lines 36-64) -/

/-- Vendor document object, with the fields the listing code reads. -/
structure VendorDoc where
  name : String
  display_name : String
  size_bytes : Nat
  deriving DecidableEq, Repr

/-- Row dict built for each document (src/app.py lines 51-57). -/
structure DocRow where
  doc_name : String
  display_name : String
  size_bytes : Nat
  deriving DecidableEq, Repr

def doc_row (d : VendorDoc) : DocRow := ⟨d.name, d.display_name, d.size_bytes⟩

def PAGE_SIZE : Nat := 20

/-- Observable behaviour of the vendor pager for one `list_documents` call:
the documents it yields in order, and the continuation token its config
reports after iteration (`pager._config.get("page_token")`; `none` covers
both a missing `_config` attribute and a missing key). -/
structure PagerResult where
  yielded : List VendorDoc
  reported_token : Option String
  deriving Repr

/-- `list_documents` (src/app.py lines 39-64): collect rows from the pager,
breaking once `PAGE_SIZE` rows are collected; read the token the pager
reports; treat a reported token equal to the requested one as no next page. -/
def list_documents (pager : PagerResult) (page_token : Option String) :
    List DocRow × Option String :=
  let docs := (pager.yielded.take PAGE_SIZE).map doc_row
  let next_page_token := pager.reported_token
  let next_page_token :=
    if next_page_token = page_token then none else next_page_token
  (docs, next_page_token)

/-! ### Upload orchestrator (src/app.py lines 67-84) -/

/-- Outcome of the staging step, the `with tempfile.NamedTemporaryFile` block:
either creating the temporary file raises (no file exists), or the write into
it raises (the file exists; `delete=False` means closing does not remove it),
or the blob is staged. -/
inductive StageResult where
  | createFail
  | writeFail
  | staged
  deriving DecidableEq, Repr

/-- Oracle for one `upload_document_to_store` call: the staging outcome, the
submission outcome (`error` when `upload_to_file_search_store` raises, `ok d`
when it returns an operation whose `done` flag is `d`), and the successive
outcomes of the `operations.get` polls (`error` when a poll raises, `ok d`
when it returns an operation with `done` flag `d`). -/
structure UploadEnv where
  stage : StageResult
  submit : Except Unit Bool
  polls : List (Except Unit Bool)

/-- Poll loop (src/app.py lines 80-82): `while not operation.done` repoll.
Returns `none` when the modelled poll sequence runs out with `done` still
false: the real loop would keep blocking and the call would never return. -/
def poll_loop : Bool → List (Except Unit Bool) → Option (Except Unit Unit)
  | true, _ => some (Except.ok ())
  | false, [] => none
  | false, p :: rest =>
    match p with
    | Except.error e => some (Except.error e)
    | Except.ok d => poll_loop d rest

/-- `upload_document_to_store` (src/app.py lines 67-84). First component:
`some (ok ())` when the call returns normally, `some (error ())` when it
raises to the caller, `none` when the poll loop never ends. Second component:
whether the temporary file still exists in storage at that point. The
`try/finally` around submission and polling always runs `os.remove`; the
staging `with` block is outside it and uses `delete=False`, so a raise from
the write leaves the file behind. -/
def upload_document_to_store (env : UploadEnv) :
    Option (Except Unit Unit) × Bool :=
  match env.stage with
  | StageResult.createFail => (some (Except.error ()), false)
  | StageResult.writeFail => (some (Except.error ()), true)
  | StageResult.staged =>
    match env.submit with
    | Except.error e => (some (Except.error e), false)
    | Except.ok d =>
      match poll_loop d env.polls with
      | none => (none, true)
      | some r => (some r, false)

/-! ### Chat history (src/app.py lines 250-292) -/

/-- Chat message dict: a role (`"user"` or `"model"`) and a text;
`run_query` returns `response.text`, whose Python type is `str | None`, so
the text of a model message is an `Option String`. -/
structure ChatMsg where
  role : String
  text : Option String
  deriving DecidableEq, Repr

/-- Chat submit handler (src/app.py lines 277-292): append the user message;
run the query (`query` is its observable outcome: `ok reply` when
`generate_content` returns with `response.text = reply`, `error` when it
raises); on success append the model message and show the reply, on failure
pop the just-appended user message. Returns the new history and the outcome
surfaced to the user. -/
def chat_step (history : List ChatMsg) (prompt : String)
    (query : Except Unit (Option String)) :
    List ChatMsg × Except Unit (Option String) :=
  let h1 := history ++ [⟨"user", some prompt⟩]
  match query with
  | Except.ok reply => (h1 ++ [⟨"model", reply⟩], Except.ok reply)
  | Except.error e => (h1.dropLast, Except.error e)

/-! ### Upload section with dedup record (src/app.py lines 225-247) -/

/-- Uploaded file as seen by the dedup key: its name and size. -/
structure UploadFile where
  file_name : String
  size : Nat
  deriving DecidableEq, Repr

/-- Composite dedup key (src/app.py line 235):
`f"{selected_store}:{uploaded_file.name}:{uploaded_file.size}"`. -/
def file_key (store_name : String) (f : UploadFile) : String :=
  store_name ++ ":" ++ f.file_name ++ ":" ++ toString f.size

/-- What the upload loop reports for one file. -/
inductive UploadEvent where
  | alreadyUploaded
  | uploadSuccess
  | uploadError
  deriving DecidableEq, Repr

/-- One iteration of the upload loop (src/app.py lines 234-247): skip a key
already marked processed; otherwise issue the remote upload (`outcome` is its
observable result: `true` when `upload_document_to_store` returns, `false`
when it raises) and mark the key processed only on success. Returns the event
shown, whether a remote upload call was issued, and the updated processed
keys. -/
def process_upload (store_name : String) (processed : List String)
    (f : UploadFile) (outcome : Bool) : UploadEvent × Bool × List String :=
  let key := file_key store_name f
  if processed.contains key then (UploadEvent.alreadyUploaded, false, processed)
  else if outcome then (UploadEvent.uploadSuccess, true, key :: processed)
  else (UploadEvent.uploadError, true, processed)

/-- The upload loop of `render_upload_section` over the picked files, each
paired with the outcome its remote call would have. Returns the events in
order, the number of remote upload calls issued, and the final processed
keys. -/
def render_upload_section (store_name : String) (processed : List String) :
    List (UploadFile × Bool) → List UploadEvent × Nat × List String
  | [] => ([], 0, processed)
  | (f, outcome) :: rest =>
    let r1 := process_upload store_name processed f outcome
    let r2 := render_upload_section store_name r1.2.2 rest
    (r1.1 :: r2.1, (if r1.2.1 then 1 else 0) + r2.2.1, r2.2.2)

/-! ### Batch delete (src/app.py lines 204-220) -/

/-- One selected row of the documents table: the value of its document-name
column (the empty string models a falsy value, skipped by `continue`) and
whether the vendor delete call for it would succeed. -/
structure DeleteRow where
  doc_name : String
  delete_ok : Bool
  deriving DecidableEq, Repr

/-- Per-document outcome reported by the delete loop. -/
inductive DeleteEvent where
  | skippedNoName
  | deleted (doc_name : String)
  | failed (doc_name : String)
  deriving DecidableEq, Repr

/-- One iteration of the delete loop (src/app.py lines 206-216): skip a falsy
name; otherwise attempt the delete, reporting a toast on success and an error
on failure, in either case continuing with the next row. -/
def delete_one (r : DeleteRow) : DeleteEvent :=
  if r.doc_name = "" then DeleteEvent.skippedNoName
  else if r.delete_ok then DeleteEvent.deleted r.doc_name
  else DeleteEvent.failed r.doc_name

/-- Observable state threaded through the batch delete handler: the events
reported so far, how many times `list_documents.clear()` ran, the pagination
state of the selected store, and how many times it was reset. -/
structure BatchState where
  events : List DeleteEvent
  cache_clears : Nat
  pagination : PageState
  pagination_resets : Nat
  deriving Repr

/-- The delete loop body (src/app.py lines 206-216): one event per row, no
cache clear and no pagination reset inside the loop. -/
def delete_loop (rows : List DeleteRow) (st : BatchState) : BatchState :=
  match rows with
  | [] => st
  | r :: rest => delete_loop rest { st with events := st.events ++ [delete_one r] }

/-- Batch delete handler (src/app.py lines 204-220): run the loop over the
selected rows, then `list_documents.clear()` once and reset the pagination
state of the store once. -/
def delete_batch (rows : List DeleteRow) (st : BatchState) : BatchState :=
  let st2 := delete_loop rows st
  { st2 with
    cache_clears := st2.cache_clears + 1
    pagination := initPageState
    pagination_resets := st2.pagination_resets + 1 }

/-! ### Response cache (src/app.py lines 20, 39, 142-143, 217, 243) -/

/-- Cache entry: the memoized value and the time of the successful fetch that
produced it, in seconds. -/
structure CacheEntry (α : Type) where
  value : α
  fetched_at : Nat
  deriving Repr

/-- Time-to-live of the cached listing functions, in seconds
(`ttl=60` at src/app.py lines 20 and 39). -/
def CACHE_TTL : Nat := 60

/-- Modelled from the spec: the memoization layer is the streamlit
`st.cache_data` decorator applied to `list_file_search_stores` and
`list_documents`; its implementation is not part of this repository. Spec
4.1: memoized "with a fixed time-to-live (60 seconds) from first successful
fetch"; an entry within the TTL is served without a remote call, an older
entry is refetched; "a fetch failure must not populate the cache". Given the
current entry for a key, the current time and the outcome the remote fetch
would have, returns the result given to the caller, the new entry, and
whether the remote call was made. -/
def cache_get_or_fetch {α : Type} (entry : Option (CacheEntry α)) (now : Nat)
    (fetch : Except Unit α) :
    Except Unit α × Option (CacheEntry α) × Bool :=
  match entry with
  | some e =>
    if now - e.fetched_at < CACHE_TTL then (Except.ok e.value, some e, false)
    else
      match fetch with
      | Except.ok v => (Except.ok v, some ⟨v, now⟩, true)
      | Except.error err => (Except.error err, none, true)
  | none =>
    match fetch with
    | Except.ok v => (Except.ok v, some ⟨v, now⟩, true)
    | Except.error err => (Except.error err, none, true)

/-- Modelled from the spec: `clear()` on a cached function (called at
src/app.py lines 142-143, 217 and 243) drops all entries regardless of
age. -/
def cache_invalidate {α : Type} (_entry : Option (CacheEntry α)) :
    Option (CacheEntry α) :=
  none

/-- Session with no pagination keys. -/
def emptySession : PaginationSession := fun _ => none

/-! ## Theorems -/

/-- Claim C1 counterexample: with a staging write failure (a raise inside the
`with` block, whose `delete=False` file is not removed on close and whose
path never reaches the `try/finally`), `upload_document_to_store` raises to
the caller while the temporary file is still in storage. -/
theorem C1_counterexample :
    (upload_document_to_store ⟨StageResult.writeFail, Except.ok true, []⟩).1
        = some (Except.error ()) ∧
      (upload_document_to_store ⟨StageResult.writeFail, Except.ok true, []⟩).2
        = true :=
  ⟨rfl, rfl⟩

/-- Claim C1 (amended): whenever `upload_document_to_store` returns to the
caller and the staging write did not raise, the temporary file has been
removed; this covers success as well as exceptions raised during the
submission and polling steps. An exception from the staging write itself
leaves the temporary file in storage. -/
theorem C1_temp_file_removed (env : UploadEnv)
    (hstage : env.stage ≠ StageResult.writeFail)
    (hret : (upload_document_to_store env).1.isSome = true) :
    (upload_document_to_store env).2 = false := by
  obtain ⟨stage, submit, polls⟩ := env
  cases stage with
  | createFail => rfl
  | writeFail => exact absurd rfl hstage
  | staged =>
    cases submit with
    | error e => rfl
    | ok d =>
      simp only [upload_document_to_store] at hret ⊢
      cases h : poll_loop d polls with
      | none => rw [h] at hret; simp at hret
      | some r => rfl

/-- Witness for C1_temp_file_removed at a concrete input: a submission
failure returns with the temporary file removed. -/
theorem C1_temp_file_removed_witness :
    ((⟨StageResult.staged, Except.error (), []⟩ : UploadEnv).stage
        ≠ StageResult.writeFail) ∧
      (upload_document_to_store
          ⟨StageResult.staged, Except.error (), []⟩).1.isSome = true ∧
      (upload_document_to_store ⟨StageResult.staged, Except.error (), []⟩).2
        = false :=
  ⟨by decide, rfl,
    C1_temp_file_removed ⟨StageResult.staged, Except.error (), []⟩
      (by decide) rfl⟩

/-- Claim C2: if the vendor pager reports a continuation token equal to the
one just requested, `list_documents` returns `none` as the next page token,
so advancing cannot loop on the same token. -/
theorem C2_same_token_no_next (pager : PagerResult) (t : Option String)
    (h : pager.reported_token = t) :
    (list_documents pager t).2 = none := by
  simp [list_documents, h]

/-- Witness for C2_same_token_no_next at a concrete input. -/
theorem C2_same_token_no_next_witness :
    (PagerResult.mk [] (some "tok")).reported_token = some "tok" ∧
      (list_documents (PagerResult.mk [] (some "tok")) (some "tok")).2 = none :=
  ⟨rfl, C2_same_token_no_next (PagerResult.mk [] (some "tok")) (some "tok") rfl⟩

/-- Claim C3: when the query raises, `chat_step` pops exactly the one user
message it appended, so the history after the failed query equals the history
before it. -/
theorem C3_failed_query_rolls_back (history : List ChatMsg) (prompt : String)
    (e : Unit) :
    (chat_step history prompt (Except.error e)).1 = history := by
  simp [chat_step]

/-- Claim C4: after a successful upload (`reset_docs_pagination`, src/app.py
line 244) or a batch delete (in-place reset, src/app.py lines 218-219), the
pagination state the next page fetch reads through `get_docs_page_state` is
the initial state with tokens `[None]` and index 0. -/
theorem C4_mutation_resets_pagination (session : PaginationSession)
    (store other : String) :
    (get_docs_page_state (reset_docs_pagination session) store).1
        = initPageState ∧
      (get_docs_page_state (delete_path_reset session other) other).1
        = initPageState := by
  refine ⟨rfl, ?_⟩
  simp [get_docs_page_state, delete_path_reset]

/-- Claim C5 counterexample: at the frontier (no stored token at
`current_index + 1`) `advance` appends the next token, so `advance` followed
by `retreat` mutates `page_tokens` even though `current_index` is restored;
the claimed precondition `next_token` not `None` holds at this input. -/
theorem C5_counterexample :
    (some "t" : Option String) ≠ none ∧
      (retreat (advance initPageState (some "t"))).page_tokens
        ≠ initPageState.page_tokens ∧
      (retreat (advance initPageState (some "t"))).current_index
        = initPageState.current_index := by
  refine ⟨by decide, by decide, by decide⟩

/-- Claim C5 (amended): under the advance precondition, `advance` followed
immediately by `retreat` restores `current_index` to its exact prior value;
`page_tokens` is unchanged when an entry already exists at
`current_index + 1`, and otherwise gains exactly the appended next token
(`retreat` itself never mutates `page_tokens`). -/
theorem C5_advance_retreat (ps : PageState) (tok : Option String)
    (_htok : tok ≠ none) :
    (retreat (advance ps tok)).current_index = ps.current_index ∧
      (retreat (advance ps tok)).page_tokens =
        (if (ps.page_tokens.length : Int) ≤ ps.current_index + 1
          then ps.page_tokens ++ [tok] else ps.page_tokens) := by
  unfold advance retreat
  constructor
  · simp
  · rfl

/-- Witness for C5_advance_retreat at a concrete input. -/
theorem C5_advance_retreat_witness :
    (some "t" : Option String) ≠ none ∧
      ((retreat (advance initPageState (some "t"))).current_index
          = initPageState.current_index ∧
        (retreat (advance initPageState (some "t"))).page_tokens =
          (if (initPageState.page_tokens.length : Int)
              ≤ initPageState.current_index + 1
            then initPageState.page_tokens ++ [some "t"]
            else initPageState.page_tokens)) :=
  ⟨by decide, C5_advance_retreat initPageState (some "t") (by decide)⟩

/-- Claim C6: a successful query appends exactly two messages, first the
user message with the submitted text and then the model message, and the
outcome surfaced to the caller is verbatim the text of that model message. -/
theorem C6_successful_query (history : List ChatMsg) (prompt : String)
    (reply : Option String) :
    (chat_step history prompt (Except.ok reply)).1 =
        history ++ [ChatMsg.mk "user" (some prompt), ChatMsg.mk "model" reply] ∧
      (chat_step history prompt (Except.ok reply)).2 =
        Except.ok (ChatMsg.mk "model" reply).text := by
  constructor
  · simp [chat_step]
  · rfl

/-- Claim C7 counterexample: the dedup key is recorded only on success, so
when the first upload of a key fails, a second upload with the same key is
not skipped and issues a second remote call. -/
theorem C7_counterexample :
    (render_upload_section "s" []
        [(UploadFile.mk "a" 1, false), (UploadFile.mk "a" 1, true)]).1
        = [UploadEvent.uploadError, UploadEvent.uploadSuccess] ∧
      (render_upload_section "s" []
        [(UploadFile.mk "a" 1, false), (UploadFile.mk "a" 1, true)]).2.1 = 2 := by
  refine ⟨by decide, by decide⟩

/-- Claim C7 (amended): a second upload of a composite key is skipped, with
no remote call, exactly when an earlier upload of that key succeeded: any
file whose key is in the processed record is reported already uploaded
without a remote call and without changing the record, and a successful
upload immediately followed by another file with the same key issues exactly
one remote call, the second file being reported already uploaded. -/
theorem C7_dedup (store : String) (processed : List String) (f g : UploadFile)
    (out2 : Bool) (p2 : List String) (h : UploadFile) (outh : Bool)
    (hkey : file_key store g = file_key store f)
    (hnew : processed.contains (file_key store f) = false)
    (hdone : p2.contains (file_key store h) = true) :
    process_upload store p2 h outh = (UploadEvent.alreadyUploaded, false, p2) ∧
      (render_upload_section store processed [(f, true), (g, out2)]).1
        = [UploadEvent.uploadSuccess, UploadEvent.alreadyUploaded] ∧
      (render_upload_section store processed [(f, true), (g, out2)]).2.1 = 1 := by
  have hnew2 : file_key store f ∉ processed := by simpa using hnew
  have hdone2 : file_key store h ∈ p2 := by simpa using hdone
  refine ⟨?_, ?_, ?_⟩
  · simp [process_upload, hdone2]
  · simp [render_upload_section, process_upload, hnew2, hkey]
  · simp [render_upload_section, process_upload, hnew2, hkey]

/-- Witness for C7_dedup at a concrete input. -/
theorem C7_dedup_witness :
    file_key "s" (UploadFile.mk "a" 1) = file_key "s" (UploadFile.mk "a" 1) ∧
      ([] : List String).contains (file_key "s" (UploadFile.mk "a" 1)) = false ∧
      [file_key "s" (UploadFile.mk "a" 1)].contains
        (file_key "s" (UploadFile.mk "a" 1)) = true ∧
      (process_upload "s" [file_key "s" (UploadFile.mk "a" 1)]
          (UploadFile.mk "a" 1) false
        = (UploadEvent.alreadyUploaded, false, [file_key "s" (UploadFile.mk "a" 1)]) ∧
        (render_upload_section "s" []
            [(UploadFile.mk "a" 1, true), (UploadFile.mk "a" 1, false)]).1
          = [UploadEvent.uploadSuccess, UploadEvent.alreadyUploaded] ∧
        (render_upload_section "s" []
            [(UploadFile.mk "a" 1, true), (UploadFile.mk "a" 1, false)]).2.1 = 1) :=
  ⟨rfl, by decide, by decide,
    C7_dedup "s" [] (UploadFile.mk "a" 1) (UploadFile.mk "a" 1) false
      [file_key "s" (UploadFile.mk "a" 1)] (UploadFile.mk "a" 1) false
      rfl (by decide) (by decide)⟩

/-- The delete loop produces one event per row, a function of that row alone,
and touches neither the cache counter nor the pagination state. -/
theorem delete_loop_spec (rows : List DeleteRow) (st : BatchState) :
    (delete_loop rows st).events = st.events ++ rows.map delete_one ∧
      (delete_loop rows st).cache_clears = st.cache_clears ∧
      (delete_loop rows st).pagination = st.pagination ∧
      (delete_loop rows st).pagination_resets = st.pagination_resets := by
  induction rows generalizing st with
  | nil => simp [delete_loop]
  | cons r rest ih => simp [delete_loop, ih]

/-- Claim C8: in a batch delete every selected row gets its own delete
attempt and individually reported outcome, that outcome depending only on its
own row (so one failure cannot prevent the remaining attempts), and after the
whole batch the cache invalidation and the pagination reset each happen
exactly once. -/
theorem C8_batch_delete (rows : List DeleteRow) (st : BatchState) :
    (delete_batch rows st).events = st.events ++ rows.map delete_one ∧
      (delete_batch rows st).cache_clears = st.cache_clears + 1 ∧
      (delete_batch rows st).pagination_resets = st.pagination_resets + 1 ∧
      (delete_batch rows st).pagination = initPageState := by
  have h := delete_loop_spec rows st
  refine ⟨?_, ?_, ?_, ?_⟩ <;> simp [delete_batch, h.1, h.2.1, h.2.2.2]

/-- Claim C9: a call within the TTL of a successful fetch is served from the
cache without a remote call; a call past the TTL refetches; a call after an
explicit invalidation refetches regardless of entry age; and a failing fetch
leaves the cache unpopulated, so the following call makes the remote call
again. -/
theorem C9_cache_semantics {α : Type} (e : CacheEntry α) (now later n2 n3 : Nat)
    (entry : Option (CacheEntry α)) (fetch fetch2 fetch3 : Except Unit α)
    (hfresh : now - e.fetched_at < CACHE_TTL)
    (hstale : CACHE_TTL ≤ later - e.fetched_at) :
    cache_get_or_fetch (some e) now fetch = (Except.ok e.value, some e, false) ∧
      (cache_get_or_fetch (some e) later fetch2).2.2 = true ∧
      (cache_get_or_fetch (cache_invalidate entry) n2 fetch3).2.2 = true ∧
      (cache_get_or_fetch (some e) later (Except.error ())).2.1 = none ∧
      (cache_get_or_fetch (none : Option (CacheEntry α)) n3
        (Except.error ())).2.1 = none ∧
      (cache_get_or_fetch (none : Option (CacheEntry α)) n3 fetch3).2.2
        = true := by
  have hns : ¬ (later - e.fetched_at < CACHE_TTL) := not_lt.mpr hstale
  refine ⟨?_, ?_, ?_, ?_, ?_, ?_⟩
  · simp [cache_get_or_fetch, hfresh]
  · cases fetch2 <;> simp [cache_get_or_fetch, hns]
  · cases fetch3 <;> simp [cache_get_or_fetch, cache_invalidate]
  · simp [cache_get_or_fetch, hns]
  · simp [cache_get_or_fetch]
  · cases fetch3 <;> simp [cache_get_or_fetch]

/-- Witness for C9_cache_semantics at a concrete input. -/
theorem C9_cache_semantics_witness :
    10 - (CacheEntry.mk 5 0 : CacheEntry Nat).fetched_at < CACHE_TTL ∧
      CACHE_TTL ≤ 100 - (CacheEntry.mk 5 0 : CacheEntry Nat).fetched_at ∧
      (cache_get_or_fetch (some (CacheEntry.mk 5 0)) 10 (Except.ok 1)
          = (Except.ok 5, some (CacheEntry.mk 5 0), false) ∧
        (cache_get_or_fetch (some (CacheEntry.mk 5 0)) 100 (Except.ok 2)).2.2
          = true ∧
        (cache_get_or_fetch (cache_invalidate none) 0 (Except.ok 3)).2.2
          = true ∧
        (cache_get_or_fetch (some (CacheEntry.mk 5 0)) 100
          (Except.error ())).2.1 = none ∧
        (cache_get_or_fetch (none : Option (CacheEntry Nat)) 0
          (Except.error ())).2.1 = none ∧
        (cache_get_or_fetch (none : Option (CacheEntry Nat)) 0
          (Except.ok 3)).2.2 = true) :=
  ⟨by decide, by decide,
    C9_cache_semantics (CacheEntry.mk 5 0) 10 100 0 0 none
      (Except.ok 1) (Except.ok 2) (Except.ok 3) (by decide) (by decide)⟩

/-- Claim C10: the pagination invariant (index nonnegative and in bounds,
first token `None`) holds on initialization and is preserved by advance, by
retreat under its enabled-button guard, and by reset (which installs the
initial state); a page fetch reads a valid index without changing the state,
and the state read through `get_docs_page_state` satisfies the invariant
whenever every stored state does. -/
theorem C10_pagination_invariant (ps qs : PageState) (tok : Option String)
    (session : PaginationSession) (store : String)
    (hps : PageInv ps) (hqs : PageInv qs) (hpos : 0 < qs.current_index)
    (hsession : ∀ s q, session s = some q → PageInv q) :
    PageInv initPageState ∧
      PageInv (advance ps tok) ∧
      PageInv (retreat qs) ∧
      (current_page_token ps).isSome = true ∧
      PageInv (get_docs_page_state session store).1 := by
  obtain ⟨h0, hlt, hhead⟩ := hps
  obtain ⟨h0q, hltq, hheadq⟩ := hqs
  have hinit : PageInv initPageState := by decide
  have hadv : PageInv (advance ps tok) := by
    have hadv_eq : advance ps tok =
        ⟨if (ps.page_tokens.length : Int) ≤ ps.current_index + 1
            then ps.page_tokens ++ [tok] else ps.page_tokens,
          ps.current_index + 1⟩ := rfl
    rw [hadv_eq]
    by_cases hc : (ps.page_tokens.length : Int) ≤ ps.current_index + 1
    · rw [if_pos hc]
      refine ⟨?_, ?_, ?_⟩
      · show (0 : Int) ≤ ps.current_index + 1
        omega
      · show ps.current_index + 1 < ((ps.page_tokens ++ [tok]).length : Int)
        simp only [List.length_append, List.length_cons, List.length_nil]
        push_cast
        omega
      · show (ps.page_tokens ++ [tok]).head? = some none
        cases hL : ps.page_tokens with
        | nil =>
          rw [hL] at hlt
          simp at hlt
          exfalso
          omega
        | cons a as =>
          rw [hL] at hhead
          simpa using hhead
    · rw [if_neg hc]
      refine ⟨?_, ?_, ?_⟩
      · show (0 : Int) ≤ ps.current_index + 1
        omega
      · show ps.current_index + 1 < (ps.page_tokens.length : Int)
        omega
      · exact hhead
  have hret : PageInv (retreat qs) := by
    refine ⟨?_, ?_, ?_⟩
    · show (0 : Int) ≤ qs.current_index - 1
      omega
    · show qs.current_index - 1 < (qs.page_tokens.length : Int)
      omega
    · exact hheadq
  have htokv : (current_page_token ps).isSome = true := by
    have hlt2 : ps.current_index.toNat < ps.page_tokens.length := by omega
    simp [current_page_token, List.getElem?_eq_getElem hlt2]
  have hget : PageInv (get_docs_page_state session store).1 := by
    unfold get_docs_page_state
    cases hs : session store with
    | none => exact hinit
    | some q => exact hsession store q hs
  exact ⟨hinit, hadv, hret, htokv, hget⟩

/-- Witness for C10_pagination_invariant at a concrete input. -/
theorem C10_pagination_invariant_witness :
    PageInv initPageState ∧
      PageInv (PageState.mk [none, some "t"] 1) ∧
      0 < (PageState.mk [none, some "t"] 1).current_index ∧
      (PageInv initPageState ∧
        PageInv (advance initPageState (some "t")) ∧
        PageInv (retreat (PageState.mk [none, some "t"] 1)) ∧
        (current_page_token initPageState).isSome = true ∧
        PageInv (get_docs_page_state emptySession "s").1) :=
  ⟨by decide, by decide, by decide,
    C10_pagination_invariant initPageState (PageState.mk [none, some "t"] 1)
      (some "t") emptySession "s" (by decide) (by decide) (by decide)
      (fun _ _ h => Option.noConfusion h)⟩

end GeminiFileSearch
